import Mathlib

/-!
Verification of the Smart Trip Planner agent service (`main.py`).

The development shallowly embeds the service's pure logic:
* a JSON value type and an encoder modelling Python `json.dumps`
  (default separators, `ensure_ascii`),
* the stubbed search tool `perform_web_search`,
* the prompt builder (the f-string of `generate_itinerary`),
* the single-round tool-call orchestration of the `/generate` endpoint,
  with the hosted model abstracted as an oracle,
* a JSON parser and the pydantic-style validation of the `Itinerary` schema,
* the startup credential check.

Python strings are modelled as Lean `String` (sequences of unicode scalar
values); `str.lower` is modelled on the basic-latin range (identity
elsewhere, which agrees with Python on every ASCII character and, like
Python's `lower`, never produces an upper-case letter); the substring
operator `in` is modelled as character-list infix.
-/

set_option maxRecDepth 16384

namespace TripPlanner

/-- JSON values. Numeric literals are kept as their source text, which is
all the development needs of them. -/
inductive Json where
  | null : Json
  | bool (b : Bool) : Json
  | num (lit : String) : Json
  | str (s : String) : Json
  | arr (elems : List Json) : Json
  | obj (fields : List (String × Json)) : Json

/-- Hexadecimal digit characters, used for `\uXXXX` escapes. -/
def hexDigit (n : Nat) : Char :=
  if n < 10 then Char.ofNat (48 + n) else Char.ofNat (87 + n)

/-- Four-digit hexadecimal rendering of a code point (basic multilingual
plane; the service's data is ASCII). -/
def hex4 (n : Nat) : String :=
  ⟨[hexDigit (n / 4096 % 16), hexDigit (n / 256 % 16),
    hexDigit (n / 16 % 16), hexDigit (n % 16)]⟩

/-- Escaping of one character inside a JSON string, as Python `json.dumps`
does with its default `ensure_ascii=True`. -/
def escapeChar (c : Char) : String :=
  if c = '"' then "\\\""
  else if c = '\\' then "\\\\"
  else if c = '\n' then "\\n"
  else if c = '\t' then "\\t"
  else if c = '\r' then "\\r"
  else if c = '\x08' then "\\b"
  else if c = '\x0c' then "\\f"
  else if c.toNat < 32 ∨ c.toNat > 126 then "\\u" ++ hex4 c.toNat
  else String.singleton c

/-- A JSON string literal: quotes around the escaped characters. -/
def escapeString (s : String) : String :=
  "\"" ++ String.join (s.data.map escapeChar) ++ "\""

mutual

/-- Models Python `json.dumps` with its default separators
`", "` and `": "` and default key order (insertion order). -/
def Json.dumps : Json → String
  | .null => "null"
  | .bool true => "true"
  | .bool false => "false"
  | .num lit => lit
  | .str s => escapeString s
  | .arr es => "[" ++ dumpsElems es ++ "]"
  | .obj fs => "\x7b" ++ dumpsFields fs ++ "\x7d"

/-- Comma-separated rendering of array elements. -/
def dumpsElems : List Json → String
  | [] => ""
  | [j] => Json.dumps j
  | j :: rest => Json.dumps j ++ ", " ++ dumpsElems rest

/-- Comma-separated rendering of object members. -/
def dumpsFields : List (String × Json) → String
  | [] => ""
  | [(k, v)] => escapeString k ++ ": " ++ Json.dumps v
  | (k, v) :: rest => escapeString k ++ ": " ++ Json.dumps v ++ ", " ++ dumpsFields rest

end

/-- The hard-coded sample results of `perform_web_search`
(main.py lines 45-50). -/
def kyotoSearchResults : Json :=
  .obj [("results", .arr [
    .obj [("name", .str "Kikunoi Roan"), ("rating", .num "4.5"), ("type", .str "Kaiseki")],
    .obj [("name", .str "Gogyo Ramen"), ("rating", .num "4.3"), ("type", .str "Ramen")]])]

/-- The "no information found" marker of `perform_web_search`
(main.py line 51). -/
def noInfoResults : Json :=
  .obj [("results", .str "No real-time information found for this query.")]

/-- Models Python `str.lower`: each character is lowered individually.
`Char.toLower` agrees with Python's lowering on the basic-latin range and
is the identity elsewhere. -/
def pyLower (s : String) : String :=
  ⟨s.data.map Char.toLower⟩

/-- The search tool (main.py lines 37-51): if the literal
`"restaurants in Kyoto"` occurs in the lowered query, return the dumped
sample results, else the dumped marker. Python's substring operator `in`
is modelled as infix of the character lists. -/
def perform_web_search (query : String) : String :=
  if "restaurants in Kyoto".data <:+: (pyLower query).data then
    Json.dumps kyotoSearchResults
  else
    Json.dumps noInfoResults


/-! ### Prompt builder

The f-string of `generate_itinerary` (main.py lines 81-93) is a
concatenation of three literal chunks around the two interpolations
`request.prompt` and
`json.dumps(request.currentItinerary) if request.currentItinerary else 'None'`. -/

/-- Literal chunk of the f-string before `request.prompt`. -/
def promptPre : String :=
  "\n    You are an expert travel agent. Your task is to generate a detailed, day-by-day travel itinerary.\n    The user's request is: \""

/-- Literal chunk of the f-string between the two interpolations. -/
def promptMid : String :=
  "\"\n\n    If a previous itinerary is provided, modify it based on the user's request.\n    Previous itinerary: "

/-- Literal chunk of the f-string after the second interpolation. -/
def promptSuf : String :=
  "\n\n    You have access to a web search tool to find real-time information like popular restaurants or opening hours. Use it if necessary.\n\n    You **must** respond with only a valid JSON object that conforms to the required schema.\n    Do not include any other text, explanations, or markdown formatting like ```json.\n    Your response must be the raw JSON object.\n    "

/-- The second interpolation: `json.dumps(request.currentItinerary) if
request.currentItinerary else 'None'`. Python truthiness makes both a
missing itinerary and an empty object fall to the literal `'None'`. -/
def itineraryText : Option (List (String × Json)) → String
  | none => "None"
  | some [] => "None"
  | some fs => Json.dumps (Json.obj fs)

/-- The composed prompt of `generate_itinerary`. -/
def buildPrompt (p : String) (ci : Option (List (String × Json))) : String :=
  promptPre ++ p ++ promptMid ++ itineraryText ci ++ promptSuf

/-- The request body of `POST /generate` (pydantic `ItineraryRequest`):
a prompt, an optional list of opaque message records, and an optional
current itinerary object. -/
structure ItineraryRequest where
  prompt : String
  history : List (List (String × Json))
  currentItinerary : Option (List (String × Json))

/-- The prompt composed for a request. -/
def requestPrompt (r : ItineraryRequest) : String :=
  buildPrompt r.prompt r.currentItinerary


/-! ### JSON parsing

A recursive-descent parser modelling Python `json.loads` on the
fragment the service can meet: objects, arrays, strings with escapes,
numbers (literal text retained), `true`/`false`/`null`, strict rejection
of unescaped control characters. Recursion is bounded by a fuel
parameter; the top-level entry supplies `8 * (length + 1)` fuel, far
above the possible number of recursive calls, every one of which either
consumes an input character or immediately delegates to at most a
handful of further calls per character. -/

/-- JSON insignificant whitespace. -/
def jsonWs (c : Char) : Bool :=
  c = ' ' ∨ c = '\t' ∨ c = '\n' ∨ c = '\r'

/-- Drop leading JSON whitespace. -/
def skipWs (l : List Char) : List Char :=
  l.dropWhile jsonWs

/-- Value of a hexadecimal digit. -/
def hexVal (c : Char) : Option Nat :=
  if '0' ≤ c ∧ c ≤ '9' then some (c.toNat - 48)
  else if 'a' ≤ c ∧ c ≤ 'f' then some (c.toNat - 87)
  else if 'A' ≤ c ∧ c ≤ 'F' then some (c.toNat - 55)
  else none

/-- Body of a JSON string literal, after the opening quote: returns the
decoded string and the input after the closing quote. Surrogate escapes
are rejected (the service's data never carries them). -/
def pStringBody : Nat → List Char → List Char → Option (String × List Char)
  | 0, _, _ => none
  | _ + 1, _, [] => none
  | fuel + 1, acc, c :: rest =>
    if c = '"' then some (⟨acc.reverse⟩, rest)
    else if c = '\\' then
      match rest with
      | [] => none
      | e :: rest2 =>
        if e = '"' then pStringBody fuel ('"' :: acc) rest2
        else if e = '\\' then pStringBody fuel ('\\' :: acc) rest2
        else if e = '/' then pStringBody fuel ('/' :: acc) rest2
        else if e = 'b' then pStringBody fuel ('\x08' :: acc) rest2
        else if e = 'f' then pStringBody fuel ('\x0c' :: acc) rest2
        else if e = 'n' then pStringBody fuel ('\n' :: acc) rest2
        else if e = 'r' then pStringBody fuel ('\r' :: acc) rest2
        else if e = 't' then pStringBody fuel ('\t' :: acc) rest2
        else if e = 'u' then
          match rest2 with
          | h1 :: h2 :: h3 :: h4 :: rest3 =>
            match hexVal h1, hexVal h2, hexVal h3, hexVal h4 with
            | some a, some b, some c2, some d =>
              let n := ((a * 16 + b) * 16 + c2) * 16 + d
              if 0xD800 ≤ n ∧ n < 0xE000 then none
              else pStringBody fuel (Char.ofNat n :: acc) rest3
            | _, _, _, _ => none
          | _ => none
        else none
    else if c.toNat < 32 then none
    else pStringBody fuel (c :: acc) rest

/-- A JSON number, kept as its literal text: optional minus, integer part
without leading zeros, optional fraction, optional exponent. -/
def pNumber (l0 : List Char) : Option (String × List Char) :=
  let (sign, l1) :=
    match l0 with
    | c :: r => if c = '-' then (['-'], r) else (([] : List Char), l0)
    | [] => ([], l0)
  match l1.span Char.isDigit with
  | (intPart, l2) =>
    if intPart = [] then none
    else if 2 ≤ intPart.length ∧ intPart.head? = some '0' then none
    else
      let contFrac : Option (List Char × List Char) :=
        match l2 with
        | '.' :: r =>
          match r.span Char.isDigit with
          | ([], _) => none
          | (fs, l3) => some ('.' :: fs, l3)
        | _ => some ([], l2)
      match contFrac with
      | none => none
      | some (fracPart, l3) =>
        let contExp : Option (List Char × List Char) :=
          match l3 with
          | e :: r =>
            if e = 'e' ∨ e = 'E' then
              let (es, r2) :=
                match r with
                | s :: r3 => if s = '+' ∨ s = '-' then ([s], r3) else (([] : List Char), r)
                | [] => ([], r)
              match r2.span Char.isDigit with
              | ([], _) => none
              | (ds, l4) => some (e :: (es ++ ds), l4)
            else some ([], l3)
          | [] => some ([], l3)
        match contExp with
        | none => none
        | some (expPart, l4) => some (⟨sign ++ intPart ++ fracPart ++ expPart⟩, l4)

mutual

/-- Parse one JSON value after skipping whitespace. -/
def pValue : Nat → List Char → Option (Json × List Char)
  | 0, _ => none
  | fuel + 1, l =>
    match skipWs l with
    | [] => none
    | c :: rest =>
      if c = '\x7b' then pObj fuel rest
      else if c = '[' then pArr fuel rest
      else if c = '"' then
        match pStringBody fuel [] rest with
        | none => none
        | some (s, r) => some (.str s, r)
      else if c = 't' then
        match rest with
        | 'r' :: 'u' :: 'e' :: r => some (.bool true, r)
        | _ => none
      else if c = 'f' then
        match rest with
        | 'a' :: 'l' :: 's' :: 'e' :: r => some (.bool false, r)
        | _ => none
      else if c = 'n' then
        match rest with
        | 'u' :: 'l' :: 'l' :: r => some (.null, r)
        | _ => none
      else
        match pNumber (c :: rest) with
        | none => none
        | some (lit, r) => some (.num lit, r)

/-- Parse an object body after the opening brace. -/
def pObj : Nat → List Char → Option (Json × List Char)
  | 0, _ => none
  | fuel + 1, l =>
    match skipWs l with
    | '\x7d' :: r => some (.obj [], r)
    | _ => pMembers fuel [] l

/-- Parse one or more `"key": value` members. -/
def pMembers : Nat → List (String × Json) → List Char → Option (Json × List Char)
  | 0, _, _ => none
  | fuel + 1, acc, l =>
    match skipWs l with
    | '"' :: r =>
      match pStringBody fuel [] r with
      | none => none
      | some (k, r2) =>
        match skipWs r2 with
        | ':' :: r3 =>
          match pValue fuel r3 with
          | none => none
          | some (v, r4) =>
            match skipWs r4 with
            | ',' :: r5 => pMembers fuel (acc ++ [(k, v)]) r5
            | '\x7d' :: r5 => some (.obj (acc ++ [(k, v)]), r5)
            | _ => none
        | _ => none
    | _ => none

/-- Parse an array body after the opening bracket. -/
def pArr : Nat → List Char → Option (Json × List Char)
  | 0, _ => none
  | fuel + 1, l =>
    match skipWs l with
    | ']' :: r => some (.arr [], r)
    | _ => pElems fuel [] l

/-- Parse one or more array elements. -/
def pElems : Nat → List Json → List Char → Option (Json × List Char)
  | 0, _, _ => none
  | fuel + 1, acc, l =>
    match pValue fuel l with
    | none => none
    | some (v, r) =>
      match skipWs r with
      | ',' :: r2 => pElems fuel (acc ++ [v]) r2
      | ']' :: r2 => some (.arr (acc ++ [v]), r2)
      | _ => none

end

/-- Models `json.loads`: parse one document and require only whitespace
after it. -/
def parseJson (s : String) : Option Json :=
  match pValue (8 * (s.length + 1)) s.data with
  | none => none
  | some (j, rest) => if skipWs rest = [] then some j else none

/-! ### Schema validation

Models pydantic's `Itinerary.model_validate_json` (main.py lines 20-34):
required fields looked up by name (a JSON object is a Python dict, so a
duplicated key keeps its last value), `str` fields accept exactly JSON
strings, list fields accept exactly JSON arrays with every element
valid, extra fields are ignored. -/

/-- An itinerary activity item (pydantic `ItineraryItem`). -/
structure ItineraryItem where
  time : String
  activity : String
  location : String

/-- One day of the plan (pydantic `Day`). -/
structure Day where
  date : String
  summary : String
  items : List ItineraryItem

/-- The validated response shape (pydantic `Itinerary`). -/
structure Itinerary where
  title : String
  startDate : String
  endDate : String
  days : List Day

/-- Dict-style field access on a parsed object: the last binding of the
key wins, as in a Python dict built from a JSON object. -/
def pyGet (fields : List (String × Json)) (k : String) : Option Json :=
  fields.reverse.lookup k

/-- A JSON value accepted by a pydantic `str` field. -/
def asString : Json → Option String
  | .str s => some s
  | _ => none

/-- Validate every element of a list or fail. -/
def validateList {α : Type} (f : Json → Option α) : List Json → Option (List α)
  | [] => some []
  | j :: rest =>
    match f j, validateList f rest with
    | some a, some as => some (a :: as)
    | _, _ => none

/-- Validation of one `ItineraryItem`. -/
def validateItem : Json → Option ItineraryItem
  | .obj fs =>
    match pyGet fs "time" >>= asString, pyGet fs "activity" >>= asString,
          pyGet fs "location" >>= asString with
    | some t, some a, some loc => some ⟨t, a, loc⟩
    | _, _, _ => none
  | _ => none

/-- Validation of one `Day`. -/
def validateDay : Json → Option Day
  | .obj fs =>
    match pyGet fs "date" >>= asString, pyGet fs "summary" >>= asString,
          pyGet fs "items" with
    | some d, some s, some (.arr es) =>
      match validateList validateItem es with
      | some its => some ⟨d, s, its⟩
      | none => none
    | _, _, _ => none
  | _ => none

/-- Validation of the top-level `Itinerary`. -/
def validateItinerary : Json → Option Itinerary
  | .obj fs =>
    match pyGet fs "title" >>= asString, pyGet fs "startDate" >>= asString,
          pyGet fs "endDate" >>= asString, pyGet fs "days" with
    | some t, some sd, some ed, some (.arr es) =>
      match validateList validateDay es with
      | some ds => some ⟨t, sd, ed, ds⟩
      | none => none
    | _, _, _, _ => none
  | _ => none

/-- Models `Itinerary.model_validate_json`: parse, then validate. -/
def parseItinerary (s : String) : Option Itinerary :=
  parseJson s >>= validateItinerary

/-- Serialization of an `ItineraryItem` (FastAPI response rendering). -/
def itemToJson (it : ItineraryItem) : Json :=
  .obj [("time", .str it.time), ("activity", .str it.activity),
        ("location", .str it.location)]

/-- Serialization of a `Day`. -/
def dayToJson (d : Day) : Json :=
  .obj [("date", .str d.date), ("summary", .str d.summary),
        ("items", .arr (d.items.map itemToJson))]

/-- Serialization of an `Itinerary`, in field declaration order. -/
def itineraryToJson (i : Itinerary) : Json :=
  .obj [("title", .str i.title), ("startDate", .str i.startDate),
        ("endDate", .str i.endDate), ("days", .arr (i.days.map dayToJson))]

/-! ### Conversation orchestration

The hosted model is abstracted as an oracle: its reply to the composed
prompt, and its reply to a tool-response message. A reply is a
`ModelResponse`; `none` from the oracle models a transport error raised
by `chat.send_message`. Within a response, `candidates[0]` and
`parts[0]` (main.py line 98) are modelled with `head?`, an empty list
standing for the `IndexError` the subscripts would raise; a part always
carries a `function_call` record, whose name is the empty string on a
plain text part, as in the protobuf; `response.text` is an `Option`
because the accessor raises when the response has no text part. -/

/-- A function call requested by the model: name and arguments. The
`query` argument the code reads is a string. -/
structure FunctionCall where
  name : String
  args : List (String × String)

/-- One content part of a candidate. -/
structure Part where
  function_call : FunctionCall

/-- The content of a candidate. -/
structure Content where
  parts : List Part

/-- One response candidate. -/
structure Candidate where
  content : Content

/-- A model reply. -/
structure ModelResponse where
  candidates : List Candidate
  text : Option String

/-- The tool-response message sent back to the model (main.py lines
106-113): the function name and the `{"content": search_results}`
payload. -/
structure ToolPayload where
  name : String
  content : String

/-- The model abstracted over both exchanges of a request. -/
structure Oracle where
  first : String → Option ModelResponse
  second : ToolPayload → Option ModelResponse

/-- `response.candidates[0].content.parts[0]`, with `none` for the
`IndexError` of an empty list. -/
def firstPart (r : ModelResponse) : Option Part :=
  r.candidates.head? >>= fun c => c.content.parts.head?

/-- The model exchange of `generate_itinerary` (main.py lines 97-113):
returns the response whose text will be taken as the final answer
(`none` for any raised exception) together with the list of queries the
search tool was invoked with. -/
def runExchange (oracle : Oracle) (req : ItineraryRequest) :
    Option ModelResponse × List String :=
  match oracle.first (requestPrompt req) with
  | none => (none, [])
  | some resp =>
    match firstPart resp with
    | none => (none, [])
    | some part =>
      if part.function_call.name = "perform_web_search" then
        match part.function_call.args.lookup "query" with
        | none => (none, [])
        | some q =>
          (oracle.second ⟨"perform_web_search", perform_web_search q⟩, [q])
      else (some resp, [])

/-- The final answer text of a request, when no exception arises. -/
def finalText (oracle : Oracle) (req : ItineraryRequest) : Option String :=
  (runExchange oracle req).1 >>= fun r => r.text

/-- The queries the search tool is invoked with during a request. -/
def toolQueries (oracle : Oracle) (req : ItineraryRequest) : List String :=
  (runExchange oracle req).2

/-- The body of the `try` block (main.py lines 95-118): exchange,
extract text, parse, validate; `none` models any raised exception. -/
def tryGenerate (oracle : Oracle) (req : ItineraryRequest) : Option Itinerary :=
  finalText oracle req >>= parseItinerary

/-- The `/generate` endpoint: HTTP 200 with the itinerary on success,
HTTP 500 with the one generic detail message on any exception
(main.py lines 120-122). -/
def generate_itinerary (oracle : Oracle) (req : ItineraryRequest) :
    Except (Nat × String) Itinerary :=
  match tryGenerate oracle req with
  | some it => .ok it
  | none => .error (500, "Failed to generate a valid itinerary.")

/-- Models the import-time credential check (main.py lines 61-64):
`os.environ["GOOGLE_API_KEY"]` inside `try`, with the `KeyError` of a
missing variable turned into a fatal `RuntimeError` that aborts the
process before the application can accept any request. The environment
is an association list with distinct keys. -/
def startupCheck (env : List (String × String)) : Except String Unit :=
  match env.lookup "GOOGLE_API_KEY" with
  | some _ => .ok ()
  | none => .error "GOOGLE_API_KEY environment variable not set."

/-! ### Concrete oracles and requests used by the witnesses -/

/-- A reply holding one plain text part (empty function-call name, as in
the protobuf) and the given text. -/
def plainReply (t : Option String) : ModelResponse :=
  ⟨[⟨⟨[⟨⟨"", []⟩⟩]⟩⟩], t⟩

/-- The scenario request of the spec, without history or itinerary. -/
def sampleReq : ItineraryRequest :=
  ⟨"Plan 2 days in Kyoto", [], none⟩

/-- An oracle whose reply is text that is not JSON. -/
def badJsonOracle : Oracle :=
  ⟨fun _ => some (plainReply (some "not valid json")), fun _ => none⟩

/-- An oracle that always fails with a transport error. -/
def nullOracle : Oracle :=
  ⟨fun _ => none, fun _ => none⟩

/-- A first-reply part carrying a search tool call. -/
def toolCallPart : Part :=
  ⟨⟨"perform_web_search", [("query", "restaurants in Kyoto")]⟩⟩

/-- A first reply requesting the search tool. -/
def toolCallReply : ModelResponse :=
  ⟨[⟨⟨[toolCallPart]⟩⟩], none⟩

/-- An oracle that requests the search tool and then answers with plain
text. -/
def toolOracle : Oracle :=
  ⟨fun _ => some toolCallReply, fun _ => some (plainReply (some "done"))⟩

/-- A well-formed final reply text for the round-trip witness. -/
def sampleItinText : String :=
  "\x7b\"title\": \"Kyoto Trip\", \"startDate\": \"2025-04-10\", \"endDate\": \"2025-04-11\", \"days\": [\x7b\"date\": \"2025-04-10\", \"summary\": \"Gion\", \"items\": [\x7b\"time\": \"09:00\", \"activity\": \"Walk\", \"location\": \"34.9671,135.7727\"\x7d]\x7d]\x7d"

/-- The parse of `sampleItinText`. -/
def sampleItinJson : Json :=
  .obj [("title", .str "Kyoto Trip"), ("startDate", .str "2025-04-10"),
        ("endDate", .str "2025-04-11"),
        ("days", .arr [.obj [("date", .str "2025-04-10"), ("summary", .str "Gion"),
          ("items", .arr [.obj [("time", .str "09:00"), ("activity", .str "Walk"),
                                ("location", .str "34.9671,135.7727")]])]])]

/-- The validated itinerary of `sampleItinText`. -/
def sampleItinerary : Itinerary :=
  ⟨"Kyoto Trip", "2025-04-10", "2025-04-11",
   [⟨"2025-04-10", "Gion", [⟨"09:00", "Walk", "34.9671,135.7727"⟩]⟩]⟩

/-- An oracle answering directly with the well-formed itinerary text. -/
def itinOracle : Oracle :=
  ⟨fun _ => some (plainReply (some sampleItinText)), fun _ => none⟩

/-! ### The search tool claims -/

/-- Unfolding of core `Char.toLower` through its `let`. -/
theorem char_toLower_eq (c : Char) :
    Char.toLower c =
      if c.toNat ≥ 65 ∧ c.toNat ≤ 90 then Char.ofNat (c.toNat + 32) else c := rfl

/-- Lowering a character never yields the upper-case letter `K`. -/
theorem toLower_ne_K (c : Char) : Char.toLower c ≠ 'K' := by
  rw [char_toLower_eq]
  split
  · rename_i h
    obtain ⟨h1, h2⟩ := h
    set m := c.toNat with hm
    interval_cases m <;> decide
  · rename_i h
    intro hK
    subst hK
    exact h (by decide)

/-- The upper-case `K` of the tested literal can never occur in a lowered
query, so the membership test of line 44 is always false. -/
theorem kyoto_branch_unreachable (q : String) :
    ¬ ("restaurants in Kyoto".data <:+: (pyLower q).data) := by
  intro h
  have hK : 'K' ∈ "restaurants in Kyoto".data := by decide
  have hmem : 'K' ∈ (pyLower q).data := h.subset hK
  have hdata : (pyLower q).data = q.data.map Char.toLower := rfl
  rw [hdata] at hmem
  obtain ⟨c, _, hc⟩ := List.mem_map.mp hmem
  exact toLower_ne_K c hc

/-- C9: the branch returning the two fixed Kyoto sample results is
unreachable: for every query string, `perform_web_search` returns the
"no information found" marker, because the membership test compares the
lowercased query against the mixed-case literal "restaurants in Kyoto". -/
theorem c9_sample_branch_dead (q : String) :
    perform_web_search q = Json.dumps noInfoResults := by
  unfold perform_web_search
  rw [if_neg (kyoto_branch_unreachable q)]

/-- C6: for every query that does not contain the recognized substring
case-insensitively, `perform_web_search` returns the JSON-encoded
"no information found" marker. -/
theorem c6_unrecognized_query_marker (q : String)
    (_h : ¬ ((pyLower "restaurants in Kyoto").data <:+: (pyLower q).data)) :
    perform_web_search q =
      "\x7b\"results\": \"No real-time information found for this query.\"\x7d" := by
  unfold perform_web_search
  rw [if_neg (kyoto_branch_unreachable q)]
  rfl

/-- Witness for C6 at the concrete query "best sushi in Tokyo". -/
theorem c6_witness :
    perform_web_search "best sushi in Tokyo" =
      "\x7b\"results\": \"No real-time information found for this query.\"\x7d" :=
  c6_unrecognized_query_marker "best sushi in Tokyo" (by decide)

/-- C7: `perform_web_search` is total: for every query string it returns
the JSON encoding of an object whose single top-level field is
"results". -/
theorem c7_total_results_field (q : String) :
    ∃ j : Json, perform_web_search q = Json.dumps j ∧
      ∃ v : Json, j = Json.obj [("results", v)] := by
  unfold perform_web_search
  split
  · exact ⟨kyotoSearchResults, rfl,
      .arr [.obj [("name", .str "Kikunoi Roan"), ("rating", .num "4.5"),
                  ("type", .str "Kaiseki")],
            .obj [("name", .str "Gogyo Ramen"), ("rating", .num "4.3"),
                  ("type", .str "Ramen")]], rfl⟩
  · exact ⟨noInfoResults, rfl, .str "No real-time information found for this query.", rfl⟩

/-- C1, evaluation at the failing input: on the exact query
"restaurants in Kyoto" the code returns the "no information found"
marker, not the fixed sample results the spec promises. -/
theorem c1_failing_input_eval :
    perform_web_search "restaurants in Kyoto" = Json.dumps noInfoResults ∧
    perform_web_search "restaurants in Kyoto" ≠ Json.dumps kyotoSearchResults := by
  have hmark : perform_web_search "restaurants in Kyoto" = Json.dumps noInfoResults := by
    unfold perform_web_search
    rw [if_neg (kyoto_branch_unreachable "restaurants in Kyoto")]
  refine ⟨hmark, ?_⟩
  intro h
  rw [hmark] at h
  exact absurd h (by decide)

/-- String append acts as list append on the character data. -/
theorem data_append (a b : String) : (a ++ b).data = a.data ++ b.data := rfl

/-- The character data of the composed prompt, fully right-associated. -/
theorem buildPrompt_data (p : String) (ci : Option (List (String × Json))) :
    (buildPrompt p ci).data =
      promptPre.data ++ (p.data ++ (promptMid.data ++
        ((itineraryText ci).data ++ promptSuf.data))) := by
  simp [buildPrompt, data_append, List.append_assoc]

/-- The user's prompt text occurs verbatim in the composed prompt. -/
theorem user_text_infix_buildPrompt (p : String) (ci : Option (List (String × Json))) :
    p.data <:+: (buildPrompt p ci).data :=
  ⟨promptPre.data, promptMid.data ++ ((itineraryText ci).data ++ promptSuf.data),
    by rw [buildPrompt_data]; simp [List.append_assoc]⟩

/-- The leading literal chunk occurs in the composed prompt. -/
theorem pre_infix_buildPrompt (p : String) (ci : Option (List (String × Json))) :
    promptPre.data <:+: (buildPrompt p ci).data :=
  ⟨[], p.data ++ (promptMid.data ++ ((itineraryText ci).data ++ promptSuf.data)),
    by rw [buildPrompt_data]; simp [List.append_assoc]⟩

/-- The trailing literal chunk occurs in the composed prompt. -/
theorem suf_infix_buildPrompt (p : String) (ci : Option (List (String × Json))) :
    promptSuf.data <:+: (buildPrompt p ci).data :=
  ⟨promptPre.data ++ (p.data ++ (promptMid.data ++ (itineraryText ci).data)), [],
    by rw [buildPrompt_data]; simp [List.append_assoc]⟩

/-- The middle chunk followed by the itinerary interpolation occurs in the
composed prompt. -/
theorem mid_itin_infix_buildPrompt (p : String) (ci : Option (List (String × Json))) :
    (promptMid.data ++ (itineraryText ci).data) <:+: (buildPrompt p ci).data :=
  ⟨promptPre.data ++ p.data, promptSuf.data,
    by rw [buildPrompt_data]; simp [List.append_assoc]⟩

/-- The middle chunk ends with the itinerary placeholder label. -/
theorem promptMid_split :
    promptMid = "\"\n\n    If a previous itinerary is provided, modify it based on the user's request.\n    " ++ "Previous itinerary: " := by
  decide

/-- C5 (amended): the composed prompt embeds the user's prompt verbatim,
states the assistant's role, mentions the web search tool, and demands a
raw JSON reply without markdown; the previous-itinerary placeholder is
the literal token "None" when `currentItinerary` is absent or an empty
object, and the itinerary serialized as JSON when it is present and
non-empty. -/
theorem c5_prompt_structure (p : String) (ci : Option (List (String × Json))) :
    (p.data <:+: (buildPrompt p ci).data)
    ∧ ("You are an expert travel agent".data <:+: (buildPrompt p ci).data)
    ∧ ("web search tool".data <:+: (buildPrompt p ci).data)
    ∧ ("Do not include any other text, explanations, or markdown formatting".data <:+:
        (buildPrompt p ci).data)
    ∧ ("Your response must be the raw JSON object.".data <:+: (buildPrompt p ci).data)
    ∧ ((ci = none ∨ ci = some []) →
        ("Previous itinerary: None".data <:+: (buildPrompt p ci).data))
    ∧ (∀ k v fs, ci = some ((k, v) :: fs) →
        (("Previous itinerary: " ++ Json.dumps (Json.obj ((k, v) :: fs))).data <:+:
          (buildPrompt p ci).data)) := by
  refine ⟨user_text_infix_buildPrompt p ci, ?_, ?_, ?_, ?_, ?_, ?_⟩
  · exact .trans (by decide) (pre_infix_buildPrompt p ci)
  · exact .trans (by decide) (suf_infix_buildPrompt p ci)
  · exact .trans (by decide) (suf_infix_buildPrompt p ci)
  · exact .trans (by decide) (suf_infix_buildPrompt p ci)
  · intro h
    have hnone : itineraryText ci = "None" := by
      rcases h with h | h <;> rw [h] <;> rfl
    refine .trans ?_ (mid_itin_infix_buildPrompt p ci)
    rw [hnone, promptMid_split]
    refine ⟨"\"\n\n    If a previous itinerary is provided, modify it based on the user's request.\n    ".data, [], ?_⟩
    simp [data_append, List.append_assoc]
  · intro k v fs h
    have hdump : itineraryText ci = Json.dumps (Json.obj ((k, v) :: fs)) := by
      rw [h]; rfl
    refine .trans ?_ (mid_itin_infix_buildPrompt p ci)
    rw [hdump, promptMid_split]
    refine ⟨"\"\n\n    If a previous itinerary is provided, modify it based on the user's request.\n    ".data, [], ?_⟩
    simp [data_append, List.append_assoc]

/-- Witness for C5 at the scenario request "Plan 2 days in Kyoto" with no
current itinerary. -/
theorem c5_witness :
    "Previous itinerary: None".data <:+: (buildPrompt "Plan 2 days in Kyoto" none).data :=
  (c5_prompt_structure "Plan 2 days in Kyoto" none).2.2.2.2.2.1 (Or.inl rfl)

/-- C5, counterexample to the claim as stated: for the present but empty
current itinerary object, the composed prompt embeds the token "None"
(the prompt is the same as with the itinerary absent) and does not embed
its JSON serialization "\x7b\x7d". -/
theorem c5_counterexample :
    buildPrompt "Plan 2 days in Kyoto" (some []) = buildPrompt "Plan 2 days in Kyoto" none
    ∧ ¬ ((Json.dumps (Json.obj [])).data <:+:
          (buildPrompt "Plan 2 days in Kyoto" (some [])).data) := by
  constructor
  · rfl
  · decide

/-! ### Round-trip of the schema -/

/-- Validation undoes serialization of an item. -/
theorem validateItem_itemToJson (x : ItineraryItem) :
    validateItem (itemToJson x) = some x := rfl

/-- Validation undoes serialization of a list of items. -/
theorem validateList_item_map (l : List ItineraryItem) :
    validateList validateItem (l.map itemToJson) = some l := by
  induction l with
  | nil => rfl
  | cons a as ih =>
    simp [List.map, validateList, validateItem_itemToJson, ih]

/-- Validation undoes serialization of a day. -/
theorem validateDay_dayToJson (d : Day) :
    validateDay (dayToJson d) = some d := by
  have hstep : validateDay (dayToJson d) =
      (match validateList validateItem (d.items.map itemToJson) with
       | some its => some ⟨d.date, d.summary, its⟩
       | none => none) := rfl
  rw [hstep, validateList_item_map]

/-- Validation undoes serialization of a list of days. -/
theorem validateList_day_map (l : List Day) :
    validateList validateDay (l.map dayToJson) = some l := by
  induction l with
  | nil => rfl
  | cons a as ih =>
    simp [List.map, validateList, validateDay_dayToJson, ih]

/-- Validation undoes serialization of a whole itinerary. -/
theorem validateItinerary_toJson (i : Itinerary) :
    validateItinerary (itineraryToJson i) = some i := by
  have hstep : validateItinerary (itineraryToJson i) =
      (match validateList validateDay (i.days.map dayToJson) with
       | some ds => some ⟨i.title, i.startDate, i.endDate, ds⟩
       | none => none) := rfl
  rw [hstep, validateList_day_map]

/-! ### The endpoint claims -/

/-- C2: whenever any exception arises during the exchange, tool
invocation, parsing or validation — that is, whenever the `try` body
produces no itinerary — the endpoint returns HTTP 500 with the one
generic detail message and never an itinerary; a transport failure,
unparseable final text, or text whose parse fails schema validation each
force the `try` body to produce nothing. -/
theorem c2_generic_failure (oracle : Oracle) (req : ItineraryRequest) :
    (tryGenerate oracle req = none →
      generate_itinerary oracle req =
        .error (500, "Failed to generate a valid itinerary."))
    ∧ (finalText oracle req = none → tryGenerate oracle req = none)
    ∧ (∀ txt, finalText oracle req = some txt → parseJson txt = none →
        tryGenerate oracle req = none)
    ∧ (∀ txt j, finalText oracle req = some txt → parseJson txt = some j →
        validateItinerary j = none → tryGenerate oracle req = none)
    ∧ (∀ it, tryGenerate oracle req = none →
        generate_itinerary oracle req ≠ .ok it) := by
  refine ⟨?_, ?_, ?_, ?_, ?_⟩
  · intro h
    unfold generate_itinerary
    rw [h]
  · intro h
    unfold tryGenerate
    rw [h]
    rfl
  · intro txt h1 h2
    unfold tryGenerate
    rw [h1]
    show parseItinerary txt = none
    unfold parseItinerary
    rw [h2]
    rfl
  · intro txt j h1 h2 h3
    unfold tryGenerate
    rw [h1]
    show parseItinerary txt = none
    unfold parseItinerary
    rw [h2]
    show validateItinerary j = none
    exact h3
  · intro it h
    unfold generate_itinerary
    rw [h]
    intro hk
    cases hk

/-- Witness for C2 with an oracle replying with unparseable text. -/
theorem c2_witness :
    generate_itinerary badJsonOracle sampleReq =
      .error (500, "Failed to generate a valid itinerary.") :=
  (c2_generic_failure badJsonOracle sampleReq).1 rfl

/-- C3: the orchestrator performs at most one round of tool invocation:
the tool is never invoked more than once; when the first reply's first
part carries a `perform_web_search` call with a `query` argument, the
tool runs exactly once on that query and the oracle's reply to the
wrapped result is taken as the final response without further tool
handling; when the first part carries no such call, the first reply
itself is final and the tool never runs. -/
theorem c3_single_tool_round (oracle : Oracle) (req : ItineraryRequest) :
    (toolQueries oracle req).length ≤ 1
    ∧ (∀ resp part q,
        oracle.first (requestPrompt req) = some resp →
        firstPart resp = some part →
        part.function_call.name = "perform_web_search" →
        part.function_call.args.lookup "query" = some q →
        toolQueries oracle req = [q] ∧
        (runExchange oracle req).1 =
          oracle.second ⟨"perform_web_search", perform_web_search q⟩)
    ∧ (∀ resp part,
        oracle.first (requestPrompt req) = some resp →
        firstPart resp = some part →
        part.function_call.name ≠ "perform_web_search" →
        (runExchange oracle req).1 = some resp ∧ toolQueries oracle req = []) := by
  refine ⟨?_, ?_, ?_⟩
  · unfold toolQueries runExchange
    split
    · simp
    · split
      · simp
      · split
        · split <;> simp
        · simp
  · intro resp part q h1 h2 h3 h4
    unfold toolQueries runExchange
    rw [h1]
    simp only [h2, h3, h4, if_pos]
    exact ⟨trivial, trivial⟩
  · intro resp part h1 h2 h3
    unfold toolQueries runExchange
    rw [h1]
    simp only [h2, h3, if_neg]
    exact ⟨rfl, rfl⟩

/-- Witness for C3 with an oracle that requests the tool. -/
theorem c3_witness :
    toolQueries toolOracle sampleReq = ["restaurants in Kyoto"] :=
  ((c3_single_tool_round toolOracle sampleReq).2.1 toolCallReply toolCallPart
    "restaurants in Kyoto" rfl rfl rfl rfl).1

/-- C4: when the final reply text parses and validates as an Itinerary,
the endpoint returns HTTP 200 with that itinerary, and the response
round-trips through the schema unchanged. -/
theorem c4_roundtrip (oracle : Oracle) (req : ItineraryRequest)
    (txt : String) (j : Json) (it : Itinerary)
    (h1 : finalText oracle req = some txt)
    (h2 : parseJson txt = some j)
    (h3 : validateItinerary j = some it) :
    generate_itinerary oracle req = .ok it ∧
    validateItinerary (itineraryToJson it) = some it := by
  have hTry : tryGenerate oracle req = some it := by
    unfold tryGenerate
    rw [h1]
    show parseItinerary txt = some it
    unfold parseItinerary
    rw [h2]
    show validateItinerary j = some it
    exact h3
  constructor
  · unfold generate_itinerary
    rw [hTry]
  · exact validateItinerary_toJson it

/-- Witness for C4 with an oracle answering a well-formed itinerary. -/
theorem c4_witness :
    generate_itinerary itinOracle sampleReq = .ok sampleItinerary ∧
    validateItinerary (itineraryToJson sampleItinerary) = some sampleItinerary :=
  c4_roundtrip itinOracle sampleReq sampleItinText sampleItinJson sampleItinerary
    rfl rfl rfl

/-- C10: the composed prompt and the endpoint response are independent of
the request's history field: two requests equal in prompt and
currentItinerary produce the same prompt and the same response against
any oracle. -/
theorem c10_history_noninterference (oracle : Oracle) (a b : ItineraryRequest)
    (hp : a.prompt = b.prompt) (hc : a.currentItinerary = b.currentItinerary) :
    requestPrompt a = requestPrompt b ∧
    generate_itinerary oracle a = generate_itinerary oracle b := by
  have hpr : requestPrompt a = requestPrompt b := by
    unfold requestPrompt
    rw [hp, hc]
  refine ⟨hpr, ?_⟩
  unfold generate_itinerary tryGenerate finalText runExchange
  rw [hpr]

/-- Witness for C10: two requests differing only in history. -/
theorem c10_witness :
    generate_itinerary nullOracle ⟨"hi", [], none⟩ =
      generate_itinerary nullOracle ⟨"hi", [[("role", Json.str "user")]], none⟩ :=
  (c10_history_noninterference nullOracle ⟨"hi", [], none⟩
    ⟨"hi", [[("role", Json.str "user")]], none⟩ rfl rfl).2

/-- C8: when GOOGLE_API_KEY is absent from the environment, startup fails
with the fatal error and never succeeds, so the service cannot come up
to serve any request. -/
theorem c8_startup_requires_key (env : List (String × String))
    (h : env.lookup "GOOGLE_API_KEY" = none) :
    startupCheck env = .error "GOOGLE_API_KEY environment variable not set."
    ∧ ∀ u : Unit, startupCheck env ≠ .ok u := by
  have hs : startupCheck env =
      .error "GOOGLE_API_KEY environment variable not set." := by
    unfold startupCheck
    rw [h]
  refine ⟨hs, fun u hk => ?_⟩
  rw [hs] at hk
  cases hk

/-- Witness for C8 with the empty environment. -/
theorem c8_witness :
    startupCheck [] = .error "GOOGLE_API_KEY environment variable not set." :=
  (c8_startup_requires_key [] rfl).1

end TripPlanner
